import Mathlib

/-!
Shallow embedding of the MCP tool-invocation client
(`normalizeToolArguments`, `listServerTools`, `callTool`,
`cancelToolExecution` from `backend/services/mcp/tools`).

JavaScript values passed to / returned from the protocol layer are
modelled by `JsonValue`; a value that may be `undefined` is an
`Option JsonValue` (with `JsonValue.null` for an explicit `null`).
External collaborators (the SDK client, `resolveGlobalVars`, the
transport, the timer race) are modelled as oracle inputs in `CallEnv`:
the embedding is a function of the inputs of the call and of what the
outside world does, and it additionally returns a trace of the
envelopes handed to `client.callTool` and of the cancellation
notifications attempted, so that invariants about them can be stated.
-/

/-- The check `charsInfix sub l` decides whether `sub` occurs contiguously in `l`. -/
def charsInfix (sub : List Char) : List Char → Bool
  | [] => sub.isEmpty
  | c :: rest => sub.isPrefixOf (c :: rest) || charsInfix sub rest

/-- JavaScript string `includes`, on the character list (ASCII-faithful). -/
def strIncludes (s sub : String) : Bool := charsInfix sub.data s.data

/-- JavaScript string `startsWith`. -/
def strStartsWith (s p : String) : Bool := p.data.isPrefixOf s.data

/-- JavaScript string `endsWith`. -/
def strEndsWith (s p : String) : Bool := p.data.isSuffixOf s.data

/-- Protocol-safe JSON-ish values. -/
inductive JsonValue where
  | str : String → JsonValue
  | num : Int → JsonValue
  | bool : Bool → JsonValue
  | arr : List JsonValue → JsonValue
  | obj : List (String × JsonValue) → JsonValue
  | null : JsonValue

/-- An argument map as received from the caller: keys to possibly
`undefined` (`none`) values. -/
abbrev ArgMap := List (String × Option JsonValue)

/-- A value thrown by JavaScript code: either an `Error` carrying a
message and, when it is an `McpError`, a structured protocol code, or a
non-`Error` value (whose message is unreadable). -/
inductive Thrown where
  | err : String → Option Int → Thrown
  | nonError : Thrown

/-- The JS expression reading a message off a thrown value: its
`.message` when it is an `Error`, the string `Unknown error` otherwise. -/
def errMessageOf : Thrown → String
  | .err m _ => m
  | .nonError => "Unknown error"

/-- The structured code: `some error.code` when the thrown value is an
`McpError`, `none` otherwise. -/
def mcpCodeOf : Thrown → Option Int
  | .err _ c => c
  | .nonError => none

/-- The default value `normalizeToolArguments` substitutes for an
absent value, inferred from the key name (source lines 29-45). -/
def inferDefault (key : String) : JsonValue :=
  if strIncludes key "number" || strEndsWith key "Count" || strEndsWith key "Id" || strEndsWith key "Limit" then
    JsonValue.num 0
  else if strIncludes key "bool" || strStartsWith key "is" || strStartsWith key "has" || strStartsWith key "should" then
    JsonValue.bool false
  else if strIncludes key "array" || strEndsWith key "s" || strEndsWith key "List" || strEndsWith key "Items" then
    JsonValue.arr []
  else if strIncludes key "object" || strEndsWith key "Options" || strEndsWith key "Config" || strEndsWith key "Settings" then
    JsonValue.obj []
  else
    JsonValue.str ""

/-- Source function `normalizeToolArguments(args, toolName)`: replaces each
`undefined`/`null` value by the inferred default and keeps every other
value unchanged (the `toolName` parameter is used only for logging). -/
def normalizeToolArguments (args : ArgMap) (toolName : String) : List (String × JsonValue) :=
  args.map (fun p =>
    (p.1, match p.2 with
          | none => inferDefault p.1
          | some JsonValue.null => inferDefault p.1
          | some v => v))

/-- The shape `listServerTools` adapts each raw tool entry to. -/
structure ToolResponse where
  name : String
  description : String
  inputSchema : JsonValue

/-- A raw tool entry as returned by the SDK (`description` and
`inputSchema` may be absent). -/
structure RawTool where
  name : String
  description : Option String
  inputSchema : Option JsonValue

/-- Result shape of `listServerTools`. -/
structure ListToolsResult where
  tools : List ToolResponse
  error : Option String

/-- The transport a `Client` may carry; `hasSend` models whether
`send in transport` (the capability probe). -/
structure Transport where
  hasSend : Bool

/-- The SDK client handle (an external collaborator, borrowed). -/
structure Client where
  transport : Option Transport

/-- Source function `listServerTools(client, serverName)`; the SDK call
`client.listTools()` is the oracle `outcome` (`.ok none` models a
response whose `tools` field is absent, hence `response.tools || []`). -/
def listServerTools (client : Option Client) (serverName : String)
    (outcome : Except Thrown (Option (List RawTool))) : ListToolsResult :=
  match client with
  | none => { tools := [], error := some "Server not connected" }
  | some _ =>
    match outcome with
    | .ok tools? =>
      { tools := (tools?.getD []).map (fun t =>
          { name := t.name
            description := t.description.getD ""
            inputSchema := t.inputSchema.getD (JsonValue.obj []) })
        error := none }
    | .error e =>
      let errorMessage := errMessageOf e
      { tools := []
        error := some (if strIncludes errorMessage "Connection timeout" then
            errorMessage
          else
            "Failed to list tools: " ++ errorMessage) }

/-- The `MCPServiceResponse` shape returned by `callTool`; absent JSON
fields are `none`. -/
structure MCPServiceResponse where
  success : Bool
  data : Option JsonValue
  error : Option String
  statusCode : Option Int
  errorType : Option String
  toolName : Option String
  timeout : Option Int
  progressToken : Option String
  requiresAuthentication : Option Bool

/-- The envelope handed to `client.callTool`: name, normalized
arguments, and `_meta.progressToken`. -/
structure ToolCallParams where
  name : String
  arguments : List (String × JsonValue)
  progressToken : String

/-- A `notifications/cancelled` notification body. -/
structure CancelNotification where
  requestId : String
  reason : String

/-- Oracle inputs describing what the external world does during one
`callTool` invocation: the outcome of `resolveGlobalVars(args)`
(`.ok none` models a non-object resolution result), the UUID produced
by `uuidv4()`, whether the local timer fires before the remote call
settles, the settlement of the remote call itself, and the outcome of
`transport.send` for a cancellation notification. -/
structure CallEnv where
  resolve : Except Thrown (Option ArgMap)
  token : String
  timerWins : Bool
  remoteResult : Except Thrown JsonValue
  cancelSend : Except Thrown Unit

/-- What one `callTool` invocation did: its returned response, the
envelopes passed to `client.callTool`, the invocations of
`cancelToolExecution` (requestId, reason), and the notifications
actually passed to `transport.send`. -/
structure CallOutput where
  result : MCPServiceResponse
  envelopes : List ToolCallParams
  cancelCalls : List CancelNotification
  sends : List CancelNotification

/-- The fixed authentication-failure notice (source line 248). -/
def authFailedMessage : String :=
  "OAuth authentication failed or tokens have expired. Please re-authenticate the server."

/-- The rewritten message for a 404-matching failure (source line 258). -/
def notFound404Message : String :=
  "Tool endpoint not found (404). This may indicate OAuth authentication issues or the server may not be properly configured."

/-- The immediate `Failure` for an absent handle (source lines 102-109). -/
def serverNotFoundResponse (serverName : String) : MCPServiceResponse :=
  { success := false
    data := none
    error := some ("Server " ++ serverName ++ " not found")
    statusCode := some 404
    errorType := none
    toolName := none
    timeout := none
    progressToken := none
    requiresAuthentication := none }

/-- The `Success` response (source lines 147-151, 177-181, 231-235). -/
def successResponse (response : JsonValue) (progressToken : String) : MCPServiceResponse :=
  { success := true
    data := some response
    error := none
    statusCode := none
    errorType := none
    toolName := none
    timeout := none
    progressToken := some progressToken
    requiresAuthentication := none }

/-- The standardized timeout error response (source lines 199-207). -/
def timeoutResponse (toolName : String) (timeoutSeconds : Int) (progressToken : String) :
    MCPServiceResponse :=
  { success := false
    data := none
    error := some ("Tool execution timed out after " ++ toString timeoutSeconds ++ " seconds")
    statusCode := some 408
    errorType := some "timeout"
    toolName := some toolName
    timeout := some timeoutSeconds
    progressToken := some progressToken
    requiresAuthentication := none }

/-- The fixed authentication-failure response (source lines 246-251). -/
def authFailureResponse : MCPServiceResponse :=
  { success := false
    data := none
    error := some authFailedMessage
    statusCode := some 401
    errorType := none
    toolName := none
    timeout := none
    progressToken := none
    requiresAuthentication := some true }

/-- The outer `catch` of `callTool` (source lines 237-280): the error
classifier. The auth check returns immediately; the 404-text check
updates message and status; an `McpError` then rewrites the message and
remaps the status from the structured code; otherwise the message gets
the generic prefix. -/
def classifyToolError (e : Thrown) : MCPServiceResponse :=
  let errorMessage := errMessageOf e
  if strIncludes errorMessage "401" || strIncludes errorMessage "Unauthorized" ||
      strIncludes errorMessage "invalid_token" || strIncludes errorMessage "token_expired" then
    authFailureResponse
  else
    let is404 := strIncludes errorMessage "404" || strIncludes errorMessage "Not Found"
    let msg1 := if is404 then notFound404Message else errorMessage
    let status1 : Int := if is404 then 404 else 500
    match mcpCodeOf e with
    | some code =>
      { success := false
        data := none
        error := some ("Failed to call tool: " ++ msg1 ++ " (Code: " ++ toString code ++ ")")
        statusCode := some (if code = -32601 then 404
          else if code = -32602 then 400
          else if code = -32603 then 500
          else status1)
        errorType := none
        toolName := none
        timeout := none
        progressToken := none
        requiresAuthentication := none }
    | none =>
      { success := false
        data := none
        error := some ("Failed to call tool: " ++ msg1)
        statusCode := some status1
        errorType := none
        toolName := none
        timeout := none
        progressToken := none
        requiresAuthentication := none }

/-- Source function `cancelToolExecution(client, requestId, reason)` (source lines
287-324): throws when the client has no transport or the transport has
no `send`; otherwise sends the notification over the transport,
propagating a send failure. Returns the outcome together with the
notifications passed to `transport.send`. -/
def cancelToolExecution (client : Client) (requestId reason : String)
    (sendResult : Except Thrown Unit) :
    Except Thrown Unit × List CancelNotification :=
  match client.transport with
  | none => (.error (.err "Client has no transport" none), [])
  | some transport =>
    if transport.hasSend then
      (sendResult, [{ requestId := requestId, reason := reason }])
    else
      (.error (.err "Transport does not support sending messages" none), [])

/-- The check `error instanceof Error` plus message containing the
substring `timed out`
(source line 187). -/
def isTimeoutThrown : Thrown → Bool
  | .err m _ => strIncludes m "timed out"
  | .nonError => false

/-- Source function `callTool(client, serverName, toolName, args, timeout?)` (source
lines 94-282). The remote call and its race against the timer are
resolved by the oracles in `env`: when a positive timeout is set and
`env.timerWins` is true, the race rejects with the local timeout
`Error`; otherwise the remote call settles with `env.remoteResult`. A
rejection whose message contains "timed out" takes the timeout path
(best-effort cancellation, swallowed, then the standardized 408
response); every other failure anywhere in the body reaches the outer
catch, `classifyToolError`. -/
def callTool (client : Option Client) (serverName toolName : String)
    (args : ArgMap) (timeout : Option Int) (env : CallEnv) : CallOutput :=
  match client with
  | none =>
    { result := serverNotFoundResponse serverName
      envelopes := []
      cancelCalls := []
      sends := [] }
  | some c =>
    match env.resolve with
    | .error e =>
      { result := classifyToolError e, envelopes := [], cancelCalls := [], sends := [] }
    | .ok resolvedArgs =>
      let argsRecord := resolvedArgs.getD []
      let normalizedArgs := normalizeToolArguments argsRecord toolName
      let progressToken := env.token
      let toolCallParams : ToolCallParams :=
        { name := toolName, arguments := normalizedArgs, progressToken := progressToken }
      match timeout with
      | some t =>
        if t = -1 then
          match env.remoteResult with
          | .ok response =>
            { result := successResponse response progressToken
              envelopes := [toolCallParams], cancelCalls := [], sends := [] }
          | .error e =>
            { result := classifyToolError e
              envelopes := [toolCallParams], cancelCalls := [], sends := [] }
        else
          let raceResult : Except Thrown JsonValue :=
            if env.timerWins then
              .error (.err ("Tool execution timed out after " ++ toString t ++ " seconds") none)
            else env.remoteResult
          match raceResult with
          | .ok response =>
            { result := successResponse response progressToken
              envelopes := [toolCallParams], cancelCalls := [], sends := [] }
          | .error e =>
            if isTimeoutThrown e then
              let reason := "Execution timed out after " ++ toString t ++ " seconds"
              let cancel := cancelToolExecution c progressToken reason env.cancelSend
              { result := timeoutResponse toolName t progressToken
                envelopes := [toolCallParams]
                cancelCalls := [{ requestId := progressToken, reason := reason }]
                sends := cancel.2 }
            else
              { result := classifyToolError e
                envelopes := [toolCallParams], cancelCalls := [], sends := [] }
      | none =>
        match env.remoteResult with
        | .ok response =>
          { result := successResponse response progressToken
            envelopes := [toolCallParams], cancelCalls := [], sends := [] }
        | .error e =>
          { result := classifyToolError e
            envelopes := [toolCallParams], cancelCalls := [], sends := [] }

/-! ## Helper lemmas -/

theorem isPrefixOf_append_right (sub l u : List Char) (h : sub.isPrefixOf l = true) :
    sub.isPrefixOf (l ++ u) = true := by
  induction sub generalizing l with
  | nil => simp
  | cons a as ih =>
    cases l with
    | nil => simp at h
    | cons b bs =>
      rw [List.isPrefixOf_cons₂, Bool.and_eq_true] at h
      rw [List.cons_append, List.isPrefixOf_cons₂, Bool.and_eq_true]
      exact ⟨h.1, ih bs h.2⟩

theorem charsInfix_append_right (sub l u : List Char) (h : charsInfix sub l = true) :
    charsInfix sub (l ++ u) = true := by
  induction l with
  | nil =>
    simp [charsInfix, List.isEmpty_iff] at h
    subst h
    cases u with
    | nil => simp [charsInfix]
    | cons c cs => simp [charsInfix]
  | cons c cs ih =>
    rw [List.cons_append]
    rw [charsInfix] at h ⊢
    rw [Bool.or_eq_true] at h ⊢
    rcases h with h | h
    · exact Or.inl (isPrefixOf_append_right _ _ _ h)
    · exact Or.inr (ih h)

theorem strIncludes_append_left (s u sub : String) (h : strIncludes s sub = true) :
    strIncludes (s ++ u) sub = true := by
  rw [strIncludes, String.data_append]
  exact charsInfix_append_right _ _ _ h

/-- The local race-loss `Error` message always contains "timed out",
whatever the duration renders to. -/
theorem timedOutMessage_includes (t : Int) :
    strIncludes ("Tool execution timed out after " ++ toString t ++ " seconds") "timed out" = true := by
  apply strIncludes_append_left
  apply strIncludes_append_left
  decide

/-- Every output of the error classifier is a fully-populated failure:
`success` is false and both `error` and `statusCode` are present. -/
theorem classifyToolError_shape (e : Thrown) :
    (classifyToolError e).success = false ∧ (classifyToolError e).error.isSome = true ∧
      (classifyToolError e).statusCode.isSome = true := by
  cases e with
  | err m code =>
    by_cases hauth : (strIncludes m "401" || strIncludes m "Unauthorized" ||
        strIncludes m "invalid_token" || strIncludes m "token_expired") = true
    · simp [classifyToolError, errMessageOf, hauth, authFailureResponse]
    · cases code <;> simp [classifyToolError, errMessageOf, mcpCodeOf, hauth]
  | nonError => decide

/-- Every notification handed to `transport.send` by
`cancelToolExecution` carries the given requestId. -/
theorem cancelToolExecution_sends_requestId (c : Client) (reqId reason : String)
    (sr : Except Thrown Unit) :
    ((cancelToolExecution c reqId reason sr).2).all (fun n => n.requestId == reqId) = true := by
  obtain ⟨tr⟩ := c
  cases tr with
  | none => rfl
  | some transport =>
    obtain ⟨hs⟩ := transport
    cases hs with
    | false => rfl
    | true => simp [cancelToolExecution]

/-- Reduction of `callTool` when a positive (well, non-`-1`) timeout is
set, the handle is present, resolution succeeded and the timer fires
first: the race rejects with the local timeout `Error`, whose message
contains `timed out`, so the timeout path is taken. -/
theorem callTool_timerWins_eq (c : Client) (sn tn : String) (args : ArgMap)
    (r : Option ArgMap) (tok : String) (remote : Except Thrown JsonValue)
    (cs : Except Thrown Unit) (t : Int) (hne : ¬ t = -1) :
    callTool (some c) sn tn args (some t) ⟨.ok r, tok, true, remote, cs⟩ =
      { result := timeoutResponse tn t tok
        envelopes := [⟨tn, normalizeToolArguments (r.getD []) tn, tok⟩]
        cancelCalls := [⟨tok, "Execution timed out after " ++ toString t ++ " seconds"⟩]
        sends := (cancelToolExecution c tok
          ("Execution timed out after " ++ toString t ++ " seconds") cs).2 } := by
  simp [callTool, hne, isTimeoutThrown, timedOutMessage_includes t]

/-- Reduction of `callTool` when a non-`-1` timeout is set, the remote
call settles first with a rejection whose message contains `timed out`:
the rejection is treated exactly like a local timer expiry. -/
theorem callTool_raceTimeoutText_eq (c : Client) (sn tn : String) (args : ArgMap)
    (r : Option ArgMap) (tok : String) (cs : Except Thrown Unit) (t : Int)
    (m : String) (code : Option Int) (hne : ¬ t = -1)
    (hm : strIncludes m "timed out" = true) :
    callTool (some c) sn tn args (some t) ⟨.ok r, tok, false, .error (.err m code), cs⟩ =
      { result := timeoutResponse tn t tok
        envelopes := [⟨tn, normalizeToolArguments (r.getD []) tn, tok⟩]
        cancelCalls := [⟨tok, "Execution timed out after " ++ toString t ++ " seconds"⟩]
        sends := (cancelToolExecution c tok
          ("Execution timed out after " ++ toString t ++ " seconds") cs).2 } := by
  simp [callTool, hne, isTimeoutThrown, hm]

/-- Reduction of `callTool` when a non-`-1` timeout is set and the
remote call settles first with a rejection not matching the timeout
text: the rejection is re-thrown to the outer catch and classified. -/
theorem callTool_raceOtherError_eq (c : Client) (sn tn : String) (args : ArgMap)
    (r : Option ArgMap) (tok : String) (cs : Except Thrown Unit) (t : Int)
    (e : Thrown) (hne : ¬ t = -1) (hm : isTimeoutThrown e = false) :
    callTool (some c) sn tn args (some t) ⟨.ok r, tok, false, .error e, cs⟩ =
      { result := classifyToolError e
        envelopes := [⟨tn, normalizeToolArguments (r.getD []) tn, tok⟩]
        cancelCalls := []
        sends := [] } := by
  simp [callTool, hne, hm]

/-- Reduction of `callTool` when a non-`-1` timeout is set and the
remote call fulfils first. -/
theorem callTool_raceSuccess_eq (c : Client) (sn tn : String) (args : ArgMap)
    (r : Option ArgMap) (tok : String) (cs : Except Thrown Unit) (t : Int)
    (v : JsonValue) (hne : ¬ t = -1) :
    callTool (some c) sn tn args (some t) ⟨.ok r, tok, false, .ok v, cs⟩ =
      { result := successResponse v tok
        envelopes := [⟨tn, normalizeToolArguments (r.getD []) tn, tok⟩]
        cancelCalls := []
        sends := [] } := by
  simp [callTool, hne]

/-! ## Claim theorems -/

/-- C5: for every ArgumentMap, the normalizer returns a new map with
the same keys in which every entry whose value is null/absent is
replaced by a default chosen by first-match-wins over the key name —
contains `number` or ends with `Count`/`Id`/`Limit` → 0; contains
`bool` or starts with `is`/`has`/`should` → false; contains `array` or
ends with `s`/`List`/`Items` → empty array; contains `object` or ends
with `Options`/`Config`/`Settings` → empty object; otherwise → empty
string — while every entry with a present value passes through
unchanged; the function is pure and total. -/
theorem normalizeToolArguments_convention (args : ArgMap) (toolName : String) :
    (normalizeToolArguments args toolName).map Prod.fst = args.map Prod.fst ∧
    normalizeToolArguments args toolName = args.map (fun p =>
      (p.1,
        (fun d =>
          match p.2 with
          | none => d
          | some JsonValue.null => d
          | some v => v)
        (if strIncludes p.1 "number" || strEndsWith p.1 "Count" || strEndsWith p.1 "Id" || strEndsWith p.1 "Limit" then
            JsonValue.num 0
          else if strIncludes p.1 "bool" || strStartsWith p.1 "is" || strStartsWith p.1 "has" || strStartsWith p.1 "should" then
            JsonValue.bool false
          else if strIncludes p.1 "array" || strEndsWith p.1 "s" || strEndsWith p.1 "List" || strEndsWith p.1 "Items" then
            JsonValue.arr []
          else if strIncludes p.1 "object" || strEndsWith p.1 "Options" || strEndsWith p.1 "Config" || strEndsWith p.1 "Settings" then
            JsonValue.obj []
          else JsonValue.str ""))) := by
  constructor
  · induction args with
    | nil => rfl
    | cons p ps ih => simpa [normalizeToolArguments] using ih
  · induction args with
    | nil => rfl
    | cons p ps ih =>
      obtain ⟨k, v⟩ := p
      cases v with
      | none => simpa [normalizeToolArguments, inferDefault] using ih
      | some w => cases w <;> simpa [normalizeToolArguments, inferDefault] using ih

/-- C7 (counterexample): with an absent handle and serverName
`myserver`, the returned message is `Server myserver not found`, not
the claimed literal `Server not found` (success and statusCode do
match the claim). -/
theorem callTool_no_handle_cex :
    (callTool none "myserver" "toolA" [] none
        ⟨.ok none, "tk", false, .ok JsonValue.null, .ok ()⟩).result.success = false ∧
    (callTool none "myserver" "toolA" [] none
        ⟨.ok none, "tk", false, .ok JsonValue.null, .ok ()⟩).result.statusCode = some 404 ∧
    (callTool none "myserver" "toolA" [] none
        ⟨.ok none, "tk", false, .ok JsonValue.null, .ok ()⟩).result.error =
      some "Server myserver not found" ∧
    ¬ (callTool none "myserver" "toolA" [] none
        ⟨.ok none, "tk", false, .ok JsonValue.null, .ok ()⟩).result.error =
      some "Server not found" := by decide

/-- C7 (amended): for every call where the ServerHandle is absent,
callTool immediately returns a Failure with success false, statusCode
404 and message `Server NAME not found` (the display name is
interpolated), performing no argument normalization, no token
generation, and no interaction with any server handle: the output is
independent of every oracle (so no envelope is sent, no cancellation is
attempted, and the generated token is never consulted). -/
theorem callTool_no_handle (sn tn : String) (args : ArgMap) (timeout : Option Int)
    (env env2 : CallEnv) :
    callTool none sn tn args timeout env =
      { result :=
          { success := false
            data := none
            error := some ("Server " ++ sn ++ " not found")
            statusCode := some 404
            errorType := none
            toolName := none
            timeout := none
            progressToken := none
            requiresAuthentication := none }
        envelopes := []
        cancelCalls := []
        sends := [] } ∧
    callTool none sn tn args timeout env = callTool none sn tn args timeout env2 :=
  ⟨rfl, rfl⟩

/-- C6: for every present handle and every outcome of the remote call,
callTool with timeoutSeconds `-1` and callTool with timeoutSeconds
absent produce identical outputs (same CallResult, same envelope, no
cancellation), and the `-1` branch is additionally independent of the
timer and cancellation oracles: no timer race and no cancellation
notification occur. -/
theorem callTool_infinite_eq_absent (client : Option Client) (sn tn : String)
    (args : ArgMap) (res : Except Thrown (Option ArgMap)) (tok : String) (tw tw2 : Bool)
    (remote : Except Thrown JsonValue) (cs cs2 : Except Thrown Unit) :
    callTool client sn tn args (some (-1)) ⟨res, tok, tw, remote, cs⟩ =
      callTool client sn tn args none ⟨res, tok, tw2, remote, cs2⟩ ∧
    (callTool client sn tn args (some (-1)) ⟨res, tok, tw, remote, cs⟩).cancelCalls = [] ∧
    (callTool client sn tn args (some (-1)) ⟨res, tok, tw, remote, cs⟩).sends = [] := by
  cases client with
  | none => exact ⟨rfl, rfl, rfl⟩
  | some c =>
    cases res with
    | error e => exact ⟨rfl, rfl, rfl⟩
    | ok r =>
      cases remote with
      | ok v => exact ⟨rfl, rfl, rfl⟩
      | error e => exact ⟨rfl, rfl, rfl⟩

/-- C9: listServerTools never throws (it is a total function into the
result shape): for an absent handle it returns an empty list with
error `Server not connected`; when the tool-list query fails it
returns an empty list with the error message passed through verbatim
when it contains `Connection timeout` and otherwise wrapped with the
prefix `Failed to list tools: `; on success each descriptor
substitutes the empty string for a missing description and an empty
schema for a missing inputSchema. -/
theorem listServerTools_contract (sn : String) (c : Client) (e : Thrown)
    (ts : List RawTool) (outc : Except Thrown (Option (List RawTool))) :
    listServerTools none sn outc = { tools := [], error := some "Server not connected" } ∧
    (listServerTools (some c) sn (.error e)).tools = [] ∧
    (strIncludes (errMessageOf e) "Connection timeout" = true →
      (listServerTools (some c) sn (.error e)).error = some (errMessageOf e)) ∧
    (strIncludes (errMessageOf e) "Connection timeout" = false →
      (listServerTools (some c) sn (.error e)).error =
        some ("Failed to list tools: " ++ errMessageOf e)) ∧
    listServerTools (some c) sn (.ok none) = { tools := [], error := none } ∧
    listServerTools (some c) sn (.ok (some ts)) =
      { tools := ts.map (fun t =>
          { name := t.name
            description := t.description.getD ""
            inputSchema := t.inputSchema.getD (JsonValue.obj []) })
        error := none } := by
  refine ⟨rfl, rfl, ?_, ?_, rfl, rfl⟩
  · intro h; simp [listServerTools, h]
  · intro h; simp [listServerTools, h]

/-- C9 witness: a failure whose message contains `Connection timeout`
is passed through verbatim, at a concrete input. -/
theorem listServerTools_contract_witness :
    (listServerTools (some ⟨none⟩) "srv"
        (.error (.err "Connection timeout: no response" none))).error =
      some (errMessageOf (.err "Connection timeout: no response" none)) :=
  (listServerTools_contract "srv" ⟨none⟩ (.err "Connection timeout: no response" none) []
      (.ok none)).2.2.1 (by decide)

/-- C1: for every call with a present ServerHandle and a positive
timeoutSeconds `t` whose timer fires before the remote call settles,
callTool returns the timeout Failure (success false, errorType
`timeout`, statusCode 408, message `Tool execution timed out after t
seconds`) carrying the correlationToken of the call, attempts the
cancellation notification exactly once with that same token, and the
result is the same whatever the cancellation-send outcome `cs` and
whatever the remote call would eventually do (`remote` is arbitrary):
a send failure is swallowed and never changes the result. -/
theorem callTool_timeout_outcome (c : Client) (sn tn : String) (args : ArgMap)
    (r : Option ArgMap) (tok : String) (remote : Except Thrown JsonValue)
    (cs : Except Thrown Unit) (t : Int) (ht : 0 < t) :
    callTool (some c) sn tn args (some t) ⟨.ok r, tok, true, remote, cs⟩ =
      { result := timeoutResponse tn t tok
        envelopes := [⟨tn, normalizeToolArguments (r.getD []) tn, tok⟩]
        cancelCalls := [⟨tok, "Execution timed out after " ++ toString t ++ " seconds"⟩]
        sends := (cancelToolExecution c tok
          ("Execution timed out after " ++ toString t ++ " seconds") cs).2 } :=
  callTool_timerWins_eq c sn tn args r tok remote cs t (by omega)

/-- C1 witness: at timeout 2 with a failing cancellation send, the
standardized 408 timeout response is returned and exactly one
cancellation is attempted with the same token. -/
theorem callTool_timeout_outcome_witness :
    0 < (2 : Int) ∧
    callTool (some ⟨some ⟨true⟩⟩) "srv" "toolA" [] (some 2)
        ⟨.ok (some []), "tk", true, .ok JsonValue.null, .error (.err "send failed" none)⟩ =
      { result := timeoutResponse "toolA" 2 "tk"
        envelopes := [⟨"toolA", [], "tk"⟩]
        cancelCalls := [⟨"tk", "Execution timed out after 2 seconds"⟩]
        sends := [⟨"tk", "Execution timed out after 2 seconds"⟩] } :=
  ⟨by decide, callTool_timeout_outcome ⟨some ⟨true⟩⟩ "srv" "toolA" [] (some []) "tk"
    (.ok JsonValue.null) (.error (.err "send failed" none)) 2 (by decide)⟩

/-- C10: under a positive timeoutSeconds the timeout branch is decided
by substring matching, not by which racer settled first: a rejection of
the remote call itself (timer did not fire) whose message contains
`timed out` is reported as the local timeout Failure — statusCode 408,
errorType `timeout`, message naming the local deadline `t` — and
triggers the cancellation notification, instead of being routed to the
error classifier (this holds even when the error carries a structured
protocol code). -/
theorem callTool_timedout_text_intercept (c : Client) (sn tn : String) (args : ArgMap)
    (r : Option ArgMap) (tok : String) (cs : Except Thrown Unit) (t : Int)
    (m : String) (code : Option Int) (ht : 0 < t)
    (hm : strIncludes m "timed out" = true) :
    callTool (some c) sn tn args (some t) ⟨.ok r, tok, false, .error (.err m code), cs⟩ =
      { result := timeoutResponse tn t tok
        envelopes := [⟨tn, normalizeToolArguments (r.getD []) tn, tok⟩]
        cancelCalls := [⟨tok, "Execution timed out after " ++ toString t ++ " seconds"⟩]
        sends := (cancelToolExecution c tok
          ("Execution timed out after " ++ toString t ++ " seconds") cs).2 } :=
  callTool_raceTimeoutText_eq c sn tn args r tok cs t m code (by omega) hm

/-- C10 witness: a remote rejection mentioning `timed out` under a
3-second deadline is reported as the local 408 timeout and a
cancellation is attempted. -/
theorem callTool_timedout_text_intercept_witness :
    0 < (3 : Int) ∧
    strIncludes "upstream request timed out early" "timed out" = true ∧
    callTool (some ⟨some ⟨true⟩⟩) "srv" "toolA" [] (some 3)
        ⟨.ok (some []), "tk", false,
          .error (.err "upstream request timed out early" (some (-32603))), .ok ()⟩ =
      { result := timeoutResponse "toolA" 3 "tk"
        envelopes := [⟨"toolA", [], "tk"⟩]
        cancelCalls := [⟨"tk", "Execution timed out after 3 seconds"⟩]
        sends := [⟨"tk", "Execution timed out after 3 seconds"⟩] } :=
  ⟨by decide, by decide,
    callTool_timedout_text_intercept ⟨some ⟨true⟩⟩ "srv" "toolA" [] (some []) "tk" (.ok ())
      3 "upstream request timed out early" (some (-32603)) (by decide) (by decide)⟩

/-- C2: for every input and every behavior of the external world,
callTool resolves to exactly one CallResult — a Success (success true
with a data payload) or a Failure (success false with an error message
and a statusCode) — and never propagates an exception: the embedding is
a total function, the inner re-throw is routed to the outer classifier,
and argument-resolution failures, remote-call failures and
cancellation-send failures all end in one of the two shapes below. -/
theorem callTool_always_resolves (client : Option Client) (sn tn : String)
    (args : ArgMap) (timeout : Option Int) (env : CallEnv) :
    ((callTool client sn tn args timeout env).result.success = true ∧
      (callTool client sn tn args timeout env).result.data.isSome = true) ∨
    ((callTool client sn tn args timeout env).result.success = false ∧
      (callTool client sn tn args timeout env).result.error.isSome = true ∧
      (callTool client sn tn args timeout env).result.statusCode.isSome = true) := by
  obtain ⟨res, tok, tw, remote, cs⟩ := env
  cases client with
  | none => right; exact ⟨rfl, rfl, rfl⟩
  | some c =>
    cases res with
    | error e => right; exact classifyToolError_shape e
    | ok r =>
      cases timeout with
      | none =>
        cases remote with
        | ok v => left; exact ⟨rfl, rfl⟩
        | error e => right; exact classifyToolError_shape e
      | some t =>
        by_cases h1 : t = -1
        · subst h1
          cases remote with
          | ok v => left; exact ⟨rfl, rfl⟩
          | error e => right; exact classifyToolError_shape e
        · cases tw with
          | true =>
            right
            rw [callTool_timerWins_eq c sn tn args r tok remote cs t h1]
            exact ⟨rfl, rfl, rfl⟩
          | false =>
            cases remote with
            | ok v =>
              left
              rw [callTool_raceSuccess_eq c sn tn args r tok cs t v h1]
              exact ⟨rfl, rfl⟩
            | error e =>
              right
              by_cases h2 : isTimeoutThrown e = true
              · cases e with
                | nonError => simp [isTimeoutThrown] at h2
                | err m code =>
                  rw [callTool_raceTimeoutText_eq c sn tn args r tok cs t m code h1
                    (by simpa [isTimeoutThrown] using h2)]
                  exact ⟨rfl, rfl, rfl⟩
              · rw [callTool_raceOtherError_eq c sn tn args r tok cs t e h1
                  (by simpa using h2)]
                exact classifyToolError_shape e

/-- C8: one correlationToken per invocation, and the same token appears
everywhere it is used: in the `_meta.progressToken` of the single
envelope sent to the remote server, as the requestId of the
cancellation notification on the timeout path (both the attempted call
and every message actually passed to the transport), in the
progressToken of the timeout Failure, and in the progressToken of the
Success result. -/
theorem callTool_token_coherence (c : Client) (sn tn : String) (args : ArgMap)
    (r : Option ArgMap) (tok : String) (remote : Except Thrown JsonValue)
    (cs : Except Thrown Unit) (t : Int) (v : JsonValue) (ht : 0 < t) :
    ((callTool (some c) sn tn args (some t) ⟨.ok r, tok, true, remote, cs⟩).envelopes.map
        ToolCallParams.progressToken = [tok]) ∧
    ((callTool (some c) sn tn args (some t) ⟨.ok r, tok, true, remote, cs⟩).cancelCalls.map
        CancelNotification.requestId = [tok]) ∧
    ((callTool (some c) sn tn args (some t) ⟨.ok r, tok, true, remote, cs⟩).sends.all
        (fun n => n.requestId == tok) = true) ∧
    ((callTool (some c) sn tn args (some t) ⟨.ok r, tok, true, remote, cs⟩).result.progressToken
        = some tok) ∧
    ((callTool (some c) sn tn args (some t) ⟨.ok r, tok, false, .ok v, cs⟩).envelopes.map
        ToolCallParams.progressToken = [tok]) ∧
    ((callTool (some c) sn tn args (some t) ⟨.ok r, tok, false, .ok v, cs⟩).result.progressToken
        = some tok) := by
  have hne : ¬ t = -1 := by omega
  rw [callTool_timerWins_eq c sn tn args r tok remote cs t hne,
    callTool_raceSuccess_eq c sn tn args r tok cs t v hne]
  exact ⟨rfl, rfl, cancelToolExecution_sends_requestId c tok _ cs, rfl, rfl, rfl⟩

/-- C8 witness: token coherence at a concrete call. -/
theorem callTool_token_coherence_witness :
    ((callTool (some ⟨some ⟨true⟩⟩) "srv" "toolA" [] (some 1)
        ⟨.ok (some []), "tk", true, .ok JsonValue.null, .ok ()⟩).envelopes.map
        ToolCallParams.progressToken = ["tk"]) ∧
    ((callTool (some ⟨some ⟨true⟩⟩) "srv" "toolA" [] (some 1)
        ⟨.ok (some []), "tk", true, .ok JsonValue.null, .ok ()⟩).cancelCalls.map
        CancelNotification.requestId = ["tk"]) ∧
    ((callTool (some ⟨some ⟨true⟩⟩) "srv" "toolA" [] (some 1)
        ⟨.ok (some []), "tk", true, .ok JsonValue.null, .ok ()⟩).sends.all
        (fun n => n.requestId == "tk") = true) ∧
    ((callTool (some ⟨some ⟨true⟩⟩) "srv" "toolA" [] (some 1)
        ⟨.ok (some []), "tk", true, .ok JsonValue.null, .ok ()⟩).result.progressToken
        = some "tk") ∧
    ((callTool (some ⟨some ⟨true⟩⟩) "srv" "toolA" [] (some 1)
        ⟨.ok (some []), "tk", false, .ok (JsonValue.str "out"), .ok ()⟩).envelopes.map
        ToolCallParams.progressToken = ["tk"]) ∧
    ((callTool (some ⟨some ⟨true⟩⟩) "srv" "toolA" [] (some 1)
        ⟨.ok (some []), "tk", false, .ok (JsonValue.str "out"), .ok ()⟩).result.progressToken
        = some "tk") :=
  callTool_token_coherence ⟨some ⟨true⟩⟩ "srv" "toolA" [] (some []) "tk"
    (.ok JsonValue.null) (.ok ()) 1 (JsonValue.str "out") (by decide)

/-- C4 (counterexample): a failing remote call whose message contains
`401` is NOT always classified 401: under a positive timeout, a
rejection whose message also contains `timed out` is intercepted by the
timeout branch and reported as 408 without the authentication flag, so
the auth check does not have priority over the timeout interception. -/
theorem callTool_auth_not_always_cex :
    strIncludes "401 Unauthorized: gateway timed out" "401" = true ∧
    (callTool (some ⟨some ⟨true⟩⟩) "srv" "toolA" [] (some 1)
        ⟨.ok (some []), "tk", false,
          .error (.err "401 Unauthorized: gateway timed out" none), .ok ()⟩).result.statusCode
      = some 408 ∧
    (callTool (some ⟨some ⟨true⟩⟩) "srv" "toolA" [] (some 1)
        ⟨.ok (some []), "tk", false,
          .error (.err "401 Unauthorized: gateway timed out" none), .ok ()⟩).result.requiresAuthentication
      = none ∧
    ¬ (callTool (some ⟨some ⟨true⟩⟩) "srv" "toolA" [] (some 1)
        ⟨.ok (some []), "tk", false,
          .error (.err "401 Unauthorized: gateway timed out" none), .ok ()⟩).result.statusCode
      = some 401 := by decide

/-- C4 (amended): for every failing remote call that reaches the error
classifier — no timeout set, timeout explicitly infinite, or a positive
timeout with the timer not firing and the message not containing
`timed out` — a message containing any of `401`, `Unauthorized`,
`invalid_token`, `token_expired` yields the fixed authentication
Failure (statusCode 401, requiresAuthentication true), regardless of
any other message content (including 404-matching text) and regardless
of any structured protocol error code: within the classifier this
check has priority over all other rules. -/
theorem callTool_auth_priority (c : Client) (sn tn : String) (args : ArgMap)
    (r : Option ArgMap) (tok : String) (tw : Bool) (cs : Except Thrown Unit)
    (timeout : Option Int) (m : String) (code : Option Int)
    (hauth : (strIncludes m "401" || strIncludes m "Unauthorized" ||
      strIncludes m "invalid_token" || strIncludes m "token_expired") = true)
    (hreach : timeout = none ∨ timeout = some (-1) ∨
      (tw = false ∧ strIncludes m "timed out" = false)) :
    (callTool (some c) sn tn args timeout ⟨.ok r, tok, tw, .error (.err m code), cs⟩).result =
      authFailureResponse := by
  have hclass : classifyToolError (.err m code) = authFailureResponse := by
    simp [classifyToolError, errMessageOf, hauth]
  rcases hreach with h | h | ⟨htw, hm⟩
  · subst h; exact hclass
  · subst h; exact hclass
  · subst htw
    cases timeout with
    | none => exact hclass
    | some t =>
      by_cases h1 : t = -1
      · subst h1; exact hclass
      · rw [callTool_raceOtherError_eq c sn tn args r tok cs t (.err m code) h1
          (by simpa [isTimeoutThrown] using hm)]
        exact hclass

/-- C4 (amended) witness: a plain `Unauthorized` rejection under a
positive timeout is classified as the fixed 401 authentication
Failure. -/
theorem callTool_auth_priority_witness :
    (callTool (some ⟨some ⟨true⟩⟩) "srv" "toolA" [] (some 5)
        ⟨.ok (some []), "tk", false, .error (.err "Unauthorized" none), .ok ()⟩).result =
      authFailureResponse :=
  callTool_auth_priority ⟨some ⟨true⟩⟩ "srv" "toolA" [] (some []) "tk" false (.ok ())
    (some 5) "Unauthorized" none (by decide) (Or.inr (Or.inr ⟨rfl, by decide⟩))

/-- C3 (counterexample): classification is not first-match-wins between
the 404-text rule and the structured-code rule: a failing call whose
message contains `404` (and no authentication marker) but which carries
the structured code -32602 (invalid params) returns statusCode 400, not
the claimed 404 — the structured-code mapping runs after the 404-text
check and overrides its status. -/
theorem callTool_mcp_code_overrides_404_cex :
    strIncludes "404" "404" = true ∧
    strIncludes "404" "401" = false ∧
    strIncludes "404" "Unauthorized" = false ∧
    strIncludes "404" "invalid_token" = false ∧
    strIncludes "404" "token_expired" = false ∧
    (callTool (some ⟨some ⟨true⟩⟩) "srv" "toolA" [] none
        ⟨.ok (some []), "tk", false, .error (.err "404" (some (-32602))), .ok ()⟩).result.statusCode
      = some 400 ∧
    ¬ (callTool (some ⟨some ⟨true⟩⟩) "srv" "toolA" [] none
        ⟨.ok (some []), "tk", false, .error (.err "404" (some (-32602))), .ok ()⟩).result.statusCode
      = some 404 := by decide

/-- C3 (amended): after the authentication check fails to match, a
message containing `404` or `Not Found` sets statusCode 404 and
rewrites the message; but when the error carries a structured protocol
code the code mapping still runs and overrides the status
(method-not-found -32601 → 404, invalid-params -32602 → 400,
internal-error -32603 → 500, any other code leaves the 404 from the
text match), with the message rewritten to include the 404-rewritten
message and the numeric code; only without a structured code does the
text match alone determine the 404 status. -/
theorem callTool_404_classification (c : Client) (sn tn : String) (args : ArgMap)
    (r : Option ArgMap) (tok : String) (cs : Except Thrown Unit) (m : String)
    (code : Option Int)
    (hauth : (strIncludes m "401" || strIncludes m "Unauthorized" ||
      strIncludes m "invalid_token" || strIncludes m "token_expired") = false)
    (h404 : (strIncludes m "404" || strIncludes m "Not Found") = true) :
    (callTool (some c) sn tn args none ⟨.ok r, tok, false, .error (.err m code), cs⟩).result =
      { success := false
        data := none
        error := some (match code with
          | none => "Failed to call tool: " ++ notFound404Message
          | some cd => "Failed to call tool: " ++ notFound404Message ++
              " (Code: " ++ toString cd ++ ")")
        statusCode := some (match code with
          | none => 404
          | some cd => if cd = -32601 then 404 else if cd = -32602 then 400
              else if cd = -32603 then 500 else 404)
        errorType := none
        toolName := none
        timeout := none
        progressToken := none
        requiresAuthentication := none } := by
  have h : (callTool (some c) sn tn args none ⟨.ok r, tok, false, .error (.err m code), cs⟩).result
      = classifyToolError (.err m code) := rfl
  rw [h]
  cases code with
  | none => simp [classifyToolError, errMessageOf, mcpCodeOf, hauth, h404]
  | some cd => simp [classifyToolError, errMessageOf, mcpCodeOf, hauth, h404]

/-- C3 (amended) witness: message `Not Found` with structured code
-32601 yields 404 with the doubly-rewritten message. -/
theorem callTool_404_classification_witness :
    (callTool (some ⟨some ⟨true⟩⟩) "srv" "toolA" [] none
        ⟨.ok (some []), "tk", false, .error (.err "Not Found" (some (-32601))), .ok ()⟩).result =
      { success := false
        data := none
        error := some ("Failed to call tool: " ++ notFound404Message ++
          " (Code: " ++ toString (-32601 : Int) ++ ")")
        statusCode := some 404
        errorType := none
        toolName := none
        timeout := none
        progressToken := none
        requiresAuthentication := none } :=
  callTool_404_classification ⟨some ⟨true⟩⟩ "srv" "toolA" [] (some []) "tk" (.ok ())
    "Not Found" (some (-32601)) (by decide) (by decide)
